import Mathlib

/-!
Shallow embedding of the bantuaku forecasting core
(`src/services/forecasting/app/services/predictor.py` and
`src/services/forecasting/app/services/strategizer.py`, data model from
`src/services/forecasting/app/models/forecast.py`).

Modelling conventions:
* Python `float` arithmetic is modelled by exact rational arithmetic (`ℚ`);
  the decimal constants of the source are written as exact fractions
  (0.3 = 3/10, 30.44 = 761/25, 0.05 = 1/20, ...).
* Python `int(x)` (truncation toward zero) is `truncQ`.
* `math.sqrt` is modelled by `Real.sqrt`, so the confidence score lives in `ℝ`.
* `Optional[...]` fields are `Option _`; Python truthiness of a list
  (`if regulation_flags:`) is "present and non-empty".
* The free-form `Dict[str, Any]` values (`exogenous_factors`, `product_info`,
  `estimated_impact`) are modelled as string-keyed association lists; the core
  never inspects their values, matching the source.
* `datetime.now().isoformat()` is modelled by passing the timestamp string
  `now` as an explicit argument to `predict`.
-/

namespace Bantuaku

/-- `models/forecast.py`: `SalesHistoryPoint` (date: str, quantity: int). -/
structure SalesHistoryPoint where
  date : String
  quantity : ℤ
  deriving DecidableEq

/-- `models/forecast.py`: `TrendSignal` (keyword: str, time: str, value: int). -/
structure TrendSignal where
  keyword : String
  time : String
  value : ℤ
  deriving DecidableEq

/-- `models/forecast.py`: `RegulationFlag`. -/
structure RegulationFlag where
  regulation_id : String
  relevance_score : ℚ
  impact : String
  deriving DecidableEq

/-- `models/forecast.py`: `ForecastInputs`. `exogenous_factors` is a free-form
mapping never inspected by the core; it is modelled as an association list. -/
structure ForecastInputs where
  product_id : String
  sales_history : List SalesHistoryPoint
  trends_data : Option (List TrendSignal)
  regulation_flags : Option (List RegulationFlag)
  exogenous_factors : Option (List (String × String))
  deriving DecidableEq

/-- `models/forecast.py`: `MonthlyForecast`. `confidence_score` is a Python
float produced with `math.sqrt`, hence modelled in `ℝ`. -/
structure MonthlyForecast where
  month : ℤ
  predicted_quantity : ℤ
  confidence_lower : ℤ
  confidence_upper : ℤ
  confidence_score : ℝ

/-- A value of the `metadata` dict of a `ForecastResponse` (int counts or the
boolean `insufficient_data`). -/
inductive MetaVal where
  | int (n : ℤ)
  | bool (b : Bool)
  deriving DecidableEq

/-- `models/forecast.py`: `ForecastResponse`; `metadata` is the dict written by
`predict`, as an association list in insertion order. -/
structure ForecastResponse where
  product_id : String
  forecast_date : String
  algorithm : String
  model_version : String
  forecasts : List MonthlyForecast
  metadata : List (String × MetaVal)

/-- Python `int(x)`: truncation of a float toward zero. -/
def truncQ (q : ℚ) : ℤ :=
  if 0 ≤ q then ⌊q⌋ else ⌈q⌉

/-- `predictor.py` `_parse_sales_history`: quantities of the history, as floats. -/
def parseSalesHistory (sales_history : List SalesHistoryPoint) : List ℚ :=
  sales_history.map (fun p => (p.quantity : ℚ))

/-- `predictor.py` `_simple_moving_average(data, period)`. -/
def simpleMovingAverage (data : List ℚ) (period : ℕ) : ℚ :=
  let period := if data.length < period then data.length else period
  if period = 0 then 0
  else (data.drop (data.length - period)).sum / (period : ℚ)

/-- `predictor.py` `_exponential_smoothing(data, alpha)`: left fold starting
from `data[0]`. -/
def exponentialSmoothing (data : List ℚ) (alpha : ℚ) : ℚ :=
  match data with
  | [] => 0
  | x :: xs => xs.foldl (fun result value => alpha * value + (1 - alpha) * result) x

/-- `predictor.py` `_trend_projection(data)`: OLS fit of quantity against index,
evaluated at index `n + 6`. -/
def trendProjection (data : List ℚ) : ℚ :=
  if data.length < 2 then
    if 0 < data.length then data.headD 0 else 0
  else
    let n : ℕ := data.length
    let xMean : ℚ := ((n : ℚ) - 1) / 2
    let yMean : ℚ := data.sum / (n : ℚ)
    let numerator : ℚ :=
      ((List.range n).map (fun (i : ℕ) => ((i : ℚ) - xMean) * (data.getD i 0 - yMean))).sum
    let denominator : ℚ :=
      ((List.range n).map (fun (i : ℕ) => ((i : ℚ) - xMean) ^ 2)).sum
    if denominator = 0 then yMean
    else
      let slope := numerator / denominator
      let intercept := yMean - slope * xMean
      intercept + slope * ((n : ℚ) + 6)

/-- `predictor.py` `_seasonal_adjustment(data)`: mean of the last 30 points if
30 or more, else mean of all (0 on empty). -/
def seasonalAdjustment (data : List ℚ) : ℚ :=
  if data.length < 30 then
    if 0 < data.length then data.sum / (data.length : ℚ) else 0
  else (data.drop (data.length - 30)).sum / 30

/-- The weighted ensemble scalar of `_calculate_base_forecast`
(`sma*0.3 + es*0.3 + trend*0.25 + seasonal*0.15`), i.e. the `base_daily` local. -/
def baseDaily (data : List ℚ) : ℚ :=
  simpleMovingAverage data (min 30 data.length) * (3/10)
    + exponentialSmoothing data (3/10) * (3/10)
    + trendProjection data * (1/4)
    + seasonalAdjustment data * (3/20)

/-- The `monthly_base` local of `_calculate_base_forecast`: daily base times
30.44 days per month. -/
def monthlyBase (data : List ℚ) : ℚ :=
  baseDaily data * (761/25)

/-- `predictor.py` `_calculate_base_forecast(data)`: 12 monthly values with a 2%
per-month linear decay (`1 - (month-1)*0.02`, index `i = month-1`). -/
def calculateBaseForecast (data : List ℚ) : List ℚ :=
  (List.range 12).map (fun (i : ℕ) => monthlyBase data * (1 - (i : ℚ) * (1/50)))

/-- `predictor.py` `_calculate_trend_impact(trends_data)`:
`(avg_value - 50) / 500`, 0 on the empty list. -/
def calculateTrendImpact (trends : List TrendSignal) : ℚ :=
  if trends.isEmpty then 0
  else ((trends.map (fun t => (t.value : ℚ))).sum / (trends.length : ℚ) - 50) / 500

/-- The per-flag contribution inside `_calculate_regulation_impact`:
`+score*0.05` for impact "positive", `-score*0.05` for "negative", else 0. -/
def regulationFlagImpact (f : RegulationFlag) : ℚ :=
  if f.impact = "positive" then f.relevance_score * (1/20)
  else if f.impact = "negative" then -(f.relevance_score * (1/20))
  else 0

/-- `predictor.py` `_calculate_regulation_impact(regulation_flags)`:
sum of per-flag contributions divided by the number of flags (neutral flags
included in the divisor), 0 on the empty list. -/
def calculateRegulationImpact (flags : List RegulationFlag) : ℚ :=
  if flags.isEmpty then 0
  else (flags.map regulationFlagImpact).sum / (flags.length : ℚ)

/-- `predictor.py` `_apply_exogenous_signals`: multiply each month by the trend
factor `1 + trend_impact*(1 - i*0.05)` (when trends present and non-empty),
then by the uniform regulation factor `1 + regulation_impact` (when flags
present and non-empty). `exogenous_factors` is accepted and unused, as in the
source. -/
def applyTrendSignals (base : List ℚ) : Option (List TrendSignal) → List ℚ
  | some ts =>
    if ts.isEmpty then base
    else
      let ti := calculateTrendImpact ts
      (List.range base.length).map
        (fun i => base.getD i 0 * (1 + ti * (1 - (i : ℚ) * (1/20))))
  | none => base

def applyRegulationFlags (withTrends : List ℚ) :
    Option (List RegulationFlag) → List ℚ
  | some rs =>
    if rs.isEmpty then withTrends
    else withTrends.map (fun x => x * (1 + calculateRegulationImpact rs))
  | none => withTrends

def applyExogenousSignals (base : List ℚ) (trends : Option (List TrendSignal))
    (regs : Option (List RegulationFlag)) (exo : Option (List (String × String))) :
    List ℚ :=
  let _ := exo
  applyRegulationFlags (applyTrendSignals base trends) regs

/-- `statistics.variance(data)`: sample variance `Σ(x - x̄)² / (n - 1)`
(meaningful only for `n ≥ 2`, which is how the source calls it). -/
def sampleVariance (data : List ℚ) : ℚ :=
  let mean := data.sum / (data.length : ℚ)
  (data.map (fun x => (x - mean) ^ 2)).sum / ((data.length : ℚ) - 1)

/-- `predictor.py` `_calculate_confidence_score(sales_data, month)`:
data-quality × horizon-decay × variability-penalty, clamped to [0.1, 1.0];
0.3 when fewer than 7 points. `math.sqrt` is `Real.sqrt`. -/
noncomputable def calculateConfidenceScore (data : List ℚ) (month : ℕ) : ℝ :=
  if data.length < 7 then 3/10
  else
    let dataQuality : ℚ := min 1 ((data.length : ℚ) / 90)
    let horizonDecay : ℚ := 1 - ((month : ℚ) - 1) * (1/20)
    let variabilityPenalty : ℝ :=
      if 1 < data.length then
        let variance := sampleVariance data
        let mean := data.sum / (data.length : ℚ)
        let cv : ℝ :=
          if 0 < mean then Real.sqrt (variance : ℝ) / (mean : ℝ) else 1
        min 1 (1 - cv * (1/2))
      else (1/2 : ℝ)
    max (1/10) (min 1 ((dataQuality : ℝ) * (horizonDecay : ℝ) * variabilityPenalty))

/-- `predictor.py` `_generate_conservative_forecast(product_id)`: 12 all-zero
months with confidence 0.1, algorithm "conservative",
metadata `{"insufficient_data": True}`. -/
noncomputable def generateConservativeForecast (product_id : String) (now : String) :
    ForecastResponse :=
  { product_id := product_id
    forecast_date := now
    algorithm := "conservative"
    model_version := "v1.0.0"
    forecasts := (List.range 12).map (fun (i : ℕ) =>
      { month := (i : ℤ) + 1
        predicted_quantity := 0
        confidence_lower := 0
        confidence_upper := 0
        confidence_score := (1/10 : ℝ) })
    metadata := [("insufficient_data", MetaVal.bool true)] }

/-- The parsed sales history of a request. -/
def salesDataOf (inputs : ForecastInputs) : List ℚ :=
  parseSalesHistory inputs.sales_history

/-- The `adjusted_forecasts` local of `predict`: base forecast with exogenous
signals applied. -/
def adjustedForecasts (inputs : ForecastInputs) : List ℚ :=
  applyExogenousSignals (calculateBaseForecast (salesDataOf inputs))
    inputs.trends_data inputs.regulation_flags inputs.exogenous_factors

/-- `predictor.py` `ForecastPredictor.predict(inputs)`. The generation
timestamp is the explicit argument `now`. Month `m` (1-based) reads
`adjusted_forecasts[m-1]`; `int(...)` truncation gives the predicted quantity
and the 0.8/1.2 confidence bounds. -/
noncomputable def predict (inputs : ForecastInputs) (now : String) : ForecastResponse :=
  let salesData := salesDataOf inputs
  if salesData.length < 7 then
    generateConservativeForecast inputs.product_id now
  else
    let adjusted := adjustedForecasts inputs
    { product_id := inputs.product_id
      forecast_date := now
      algorithm := "ensemble"
      model_version := "v1.0.0"
      forecasts := (List.range 12).map (fun (i : ℕ) =>
        let forecast := adjusted.getD i 0
        { month := (i : ℤ) + 1
          predicted_quantity := truncQ forecast
          confidence_lower := truncQ (forecast * (4/5))
          confidence_upper := truncQ (forecast * (6/5))
          confidence_score := calculateConfidenceScore salesData (i + 1) })
      metadata :=
        [("data_points", MetaVal.int (salesData.length : ℤ)),
         ("trends_signals", MetaVal.int ((inputs.trends_data.getD []).length : ℤ)),
         ("regulation_flags", MetaVal.int ((inputs.regulation_flags.getD []).length : ℤ))] }

/-- Computable projection of `predict`'s per-month integer fields
`(month, predicted_quantity, confidence_lower, confidence_upper)`; used to
evaluate concrete runs, since the confidence score is real-valued. -/
def forecastFields (inputs : ForecastInputs) : List (ℤ × ℤ × ℤ × ℤ) :=
  if (salesDataOf inputs).length < 7 then
    (List.range 12).map (fun (i : ℕ) => ((i : ℤ) + 1, 0, 0, 0))
  else
    (List.range 12).map (fun (i : ℕ) =>
      let forecast := (adjustedForecasts inputs).getD i 0
      ((i : ℤ) + 1, truncQ forecast, truncQ (forecast * (4/5)),
        truncQ (forecast * (6/5))))

/-- Computable projection of the 12 predicted quantities of `predict`. -/
def predictedQuantities (inputs : ForecastInputs) : List ℤ :=
  (forecastFields inputs).map (fun x => x.2.1)

/-- `strategizer.py`: the `pricing` action dict. -/
structure PricingAction where
  action : String
  percentage : ℤ
  reason : String
  deriving DecidableEq

/-- `strategizer.py`: the `inventory` action dict. -/
structure InventoryAction where
  action : String
  quantity : ℤ
  reason : String
  deriving DecidableEq

/-- `strategizer.py`: the `marketing` action dict. -/
structure MarketingPlan where
  channels : List String
  budget : ℤ
  reason : String
  deriving DecidableEq

/-- `strategizer.py`: the `actions` dict of a monthly strategy. -/
structure StrategyActions where
  pricing : PricingAction
  inventory : InventoryAction
  marketing : MarketingPlan
  deriving DecidableEq

/-- `strategizer.py`: the dict returned by the per-tier `_*_strategy` helpers.
`estimated_impact` maps effect labels to magnitude-range strings. -/
structure MonthlyStrategy where
  text : String
  actions : StrategyActions
  priority : String
  estimated_impact : List (String × String)
  deriving DecidableEq

/-- `strategizer.py`: an element of the list returned by `generate_strategies`. -/
structure StrategyRecord where
  product_id : String
  month : ℤ
  forecast_id : Option ℤ
  strategy_text : String
  actions : StrategyActions
  priority : String
  estimated_impact : List (String × String)
  deriving DecidableEq

/-- `strategizer.py` `_no_demand_strategy(month)`. -/
def noDemandStrategy (month : ℤ) : MonthlyStrategy :=
  { text := "Bulan " ++ toString month ++
      ": Proyeksi permintaan sangat rendah. Pertimbangkan untuk mengurangi stok atau melakukan promosi untuk meningkatkan penjualan."
    actions :=
      { pricing :=
          { action := "reduce"
            percentage := 10
            reason := "Meningkatkan daya tarik produk dengan harga lebih kompetitif" }
        inventory :=
          { action := "reduce"
            quantity := 0
            reason := "Menghindari overstock" }
        marketing :=
          { channels := ["social", "email"]
            budget := 200000
            reason := "Meningkatkan awareness produk" } }
    priority := "low"
    estimated_impact :=
      [("sales_increase", "5-10%"), ("cost_reduction", "10-15%")] }

/-- `strategizer.py` `_low_demand_strategy(forecast, product_info)`. -/
def lowDemandStrategy (forecast : MonthlyForecast)
    (product_info : Option (List (String × String))) : MonthlyStrategy :=
  let _ := product_info
  let pq := forecast.predicted_quantity
  { text := "Bulan " ++ toString forecast.month ++ ": Proyeksi permintaan rendah (" ++
      toString pq ++ " unit). Fokus pada optimasi stok dan pemasaran bertarget."
    actions :=
      { pricing :=
          { action := "maintain"
            percentage := 0
            reason := "Mempertahankan harga saat ini" }
        inventory :=
          { action := "optimize"
            quantity := pq
            reason := "Menjaga stok sesuai proyeksi (" ++ toString pq ++ " unit)" }
        marketing :=
          { channels := ["social"]
            budget := 300000
            reason := "Meningkatkan visibilitas produk" } }
    priority := "medium"
    estimated_impact :=
      [("sales_increase", "10-15%"), ("inventory_optimization", "20-30%")] }

/-- `strategizer.py` `_medium_demand_strategy(forecast, product_info)`. -/
def mediumDemandStrategy (forecast : MonthlyForecast)
    (product_info : Option (List (String × String))) : MonthlyStrategy :=
  let _ := product_info
  let pq := forecast.predicted_quantity
  { text := "Bulan " ++ toString forecast.month ++ ": Proyeksi permintaan sedang (" ++
      toString pq ++ " unit). Pertahankan operasi normal dengan monitoring ketat."
    actions :=
      { pricing :=
          { action := "maintain"
            percentage := 0
            reason := "Harga sudah optimal" }
        inventory :=
          { action := "restock"
            quantity := pq + 20
            reason := "Memastikan ketersediaan dengan safety stock" }
        marketing :=
          { channels := ["social", "email"]
            budget := 500000
            reason := "Mempertahankan momentum penjualan" } }
    priority := "medium"
    estimated_impact :=
      [("sales_stability", "±5%"), ("customer_satisfaction", "High")] }

/-- `strategizer.py` `_high_demand_strategy(forecast, product_info)`. -/
def highDemandStrategy (forecast : MonthlyForecast)
    (product_info : Option (List (String × String))) : MonthlyStrategy :=
  let _ := product_info
  let pq := forecast.predicted_quantity
  { text := "Bulan " ++ toString forecast.month ++ ": Proyeksi permintaan tinggi (" ++
      toString pq ++
      " unit). Siapkan stok yang cukup dan pertimbangkan peningkatan kapasitas."
    actions :=
      { pricing :=
          { action := "increase"
            percentage := 5
            reason := "Mengoptimalkan margin pada permintaan tinggi" }
        inventory :=
          { action := "restock"
            quantity := pq + 50
            reason := "Mencegah stockout dengan stok yang memadai" }
        marketing :=
          { channels := ["social", "email", "marketplace"]
            budget := 1000000
            reason := "Maksimalkan penjualan pada periode permintaan tinggi" } }
    priority := "high"
    estimated_impact :=
      [("sales_increase", "20-30%"), ("revenue_increase", "25-35%")] }

/-- `strategizer.py` `_generate_monthly_strategy(forecast, product_info)`:
tier dispatch on `predicted_quantity` (`== 0` / `< 50` / `< 200` / else). -/
def generateMonthlyStrategy (forecast : MonthlyForecast)
    (product_info : Option (List (String × String))) : MonthlyStrategy :=
  if forecast.predicted_quantity = 0 then noDemandStrategy forecast.month
  else if forecast.predicted_quantity < 50 then lowDemandStrategy forecast product_info
  else if forecast.predicted_quantity < 200 then mediumDemandStrategy forecast product_info
  else highDemandStrategy forecast product_info

/-- `strategizer.py` `Strategizer.generate_strategies(product_id, forecasts,
product_info)`: one record per forecast, order preserved, `forecast_id = None`. -/
def generateStrategies (product_id : String) (forecasts : List MonthlyForecast)
    (product_info : Option (List (String × String))) : List StrategyRecord :=
  forecasts.map (fun forecast =>
    let strategy := generateMonthlyStrategy forecast product_info
    { product_id := product_id
      month := forecast.month
      forecast_id := none
      strategy_text := strategy.text
      actions := strategy.actions
      priority := strategy.priority
      estimated_impact := strategy.estimated_impact })

/-!
Fault-checked re-reading of the predictor: every operation that can raise in
Python — division (`ZeroDivisionError`), `data[0]` (`IndexError`),
`statistics.variance` (`StatisticsError` on fewer than 2 points),
`statistics.mean` (on empty data), `math.sqrt` (`ValueError` on negative
input) — is modelled as an `Option`, returning `none` exactly when the Python
operation would raise. The checked pipeline mirrors the source's guards
line by line, so `predictChecked = some (predict ...)` states that no internal
exception can surface from the algorithm.
-/

/-- Checked rational division: `none` exactly when Python would raise
`ZeroDivisionError`. -/
def cdiv (a b : ℚ) : Option ℚ :=
  if b = 0 then none else some (a / b)

/-- Checked real division (for `sqrt(variance)/mean`). -/
noncomputable def crdiv (a b : ℝ) : Option ℝ :=
  if b = 0 then none else some (a / b)

/-- Checked `math.sqrt`: `none` exactly when Python would raise `ValueError`
on a negative argument. -/
noncomputable def csqrt (x : ℝ) : Option ℝ :=
  if x < 0 then none else some (Real.sqrt x)

/-- Checked `data[0]`: `none` exactly when Python would raise `IndexError`. -/
def chead (data : List ℚ) : Option ℚ :=
  match data with
  | [] => none
  | x :: _ => some x

/-- Checked `_simple_moving_average`: the `period == 0` early return guards the
division. -/
def simpleMovingAverageChecked (data : List ℚ) (period : ℕ) : Option ℚ :=
  let period := if data.length < period then data.length else period
  if period = 0 then some 0
  else cdiv (data.drop (data.length - period)).sum (period : ℚ)

/-- Checked `_exponential_smoothing`: the `len(data) == 0` early return guards
the `data[0]` access. -/
def exponentialSmoothingChecked (data : List ℚ) (alpha : ℚ) : Option ℚ :=
  if data.length = 0 then some 0
  else do
    let x ← chead data
    pure (data.tail.foldl (fun result value => alpha * value + (1 - alpha) * result) x)

/-- Checked `_trend_projection`: the `len < 2` and `denominator == 0` early
returns guard the divisions; `data[0]` is guarded by `len(data) > 0`. -/
def trendProjectionChecked (data : List ℚ) : Option ℚ :=
  if data.length < 2 then
    if 0 < data.length then chead data else some 0
  else do
    let n : ℕ := data.length
    let xMean : ℚ := ((n : ℚ) - 1) / 2
    let yMean ← cdiv data.sum (n : ℚ)
    let numerator : ℚ :=
      ((List.range n).map (fun (i : ℕ) => ((i : ℚ) - xMean) * (data.getD i 0 - yMean))).sum
    let denominator : ℚ :=
      ((List.range n).map (fun (i : ℕ) => ((i : ℚ) - xMean) ^ 2)).sum
    if denominator = 0 then pure yMean
    else do
      let slope ← cdiv numerator denominator
      let intercept := yMean - slope * xMean
      pure (intercept + slope * ((n : ℚ) + 6))

/-- Checked `_seasonal_adjustment`: both divisions are guarded by the length
tests of the source. -/
def seasonalAdjustmentChecked (data : List ℚ) : Option ℚ :=
  if data.length < 30 then
    if 0 < data.length then cdiv data.sum (data.length : ℚ) else some 0
  else cdiv (data.drop (data.length - 30)).sum 30

/-- Checked `_calculate_base_forecast`. -/
def calculateBaseForecastChecked (data : List ℚ) : Option (List ℚ) := do
  let sma ← simpleMovingAverageChecked data (min 30 data.length)
  let es ← exponentialSmoothingChecked data (3/10)
  let trend ← trendProjectionChecked data
  let seasonal ← seasonalAdjustmentChecked data
  let base := sma * (3/10) + es * (3/10) + trend * (1/4) + seasonal * (3/20)
  let monthly := base * (761/25)
  pure ((List.range 12).map (fun (i : ℕ) => monthly * (1 - (i : ℚ) * (1/50))))

/-- Checked `_calculate_trend_impact`: the `if not trends_data` early return
guards the division by the list length. -/
def calculateTrendImpactChecked (trends : List TrendSignal) : Option ℚ :=
  if trends.isEmpty then some 0
  else do
    let avg ← cdiv (trends.map (fun t => (t.value : ℚ))).sum (trends.length : ℚ)
    cdiv (avg - 50) 500

/-- Checked `_calculate_regulation_impact`. -/
def calculateRegulationImpactChecked (flags : List RegulationFlag) : Option ℚ :=
  if flags.isEmpty then some 0
  else cdiv (flags.map regulationFlagImpact).sum (flags.length : ℚ)

/-- Checked trend stage of `_apply_exogenous_signals`. -/
def applyTrendSignalsChecked (base : List ℚ) :
    Option (List TrendSignal) → Option (List ℚ)
  | some ts =>
    if ts.isEmpty then some base
    else do
      let ti ← calculateTrendImpactChecked ts
      pure ((List.range base.length).map
        (fun i => base.getD i 0 * (1 + ti * (1 - (i : ℚ) * (1/20)))))
  | none => some base

/-- Checked regulation stage of `_apply_exogenous_signals`. -/
def applyRegulationFlagsChecked (withTrends : List ℚ) :
    Option (List RegulationFlag) → Option (List ℚ)
  | some rs =>
    if rs.isEmpty then some withTrends
    else do
      let ri ← calculateRegulationImpactChecked rs
      pure (withTrends.map (fun x => x * (1 + ri)))
  | none => some withTrends

/-- Checked `_apply_exogenous_signals`. -/
def applyExogenousSignalsChecked (base : List ℚ) (trends : Option (List TrendSignal))
    (regs : Option (List RegulationFlag)) (exo : Option (List (String × String))) :
    Option (List ℚ) := do
  let _ := exo
  let withTrends ← applyTrendSignalsChecked base trends
  applyRegulationFlagsChecked withTrends regs

/-- Checked `statistics.variance`: raises (`none`) on fewer than two points. -/
def sampleVarianceChecked (data : List ℚ) : Option ℚ :=
  if data.length < 2 then none
  else do
    let mean ← cdiv data.sum (data.length : ℚ)
    cdiv ((data.map (fun x => (x - mean) ^ 2)).sum) ((data.length : ℚ) - 1)

/-- Checked `statistics.mean`: raises (`none`) on empty data. -/
def meanChecked (data : List ℚ) : Option ℚ :=
  if data.length = 0 then none else cdiv data.sum (data.length : ℚ)

/-- Checked `_calculate_confidence_score`: `statistics.variance` is guarded by
`len > 1`, the division by `mean` by `mean > 0`; `sqrt` is applied to the
sample variance. -/
noncomputable def calculateConfidenceScoreChecked (data : List ℚ) (month : ℕ) :
    Option ℝ :=
  if data.length < 7 then some (3/10)
  else do
    let dataQuality : ℚ := min 1 ((data.length : ℚ) / 90)
    let horizonDecay : ℚ := 1 - ((month : ℚ) - 1) * (1/20)
    let variabilityPenalty : ℝ ←
      if 1 < data.length then do
        let variance ← sampleVarianceChecked data
        let mean ← meanChecked data
        let cv : ℝ ←
          if 0 < mean then do
            let s ← csqrt (variance : ℝ)
            crdiv s (mean : ℝ)
          else pure 1
        pure (min 1 (1 - cv * (1/2)))
      else pure ((1/2 : ℝ))
    pure (max (1/10) (min 1 ((dataQuality : ℝ) * (horizonDecay : ℝ) * variabilityPenalty)))

/-- Checked `predict`: `none` exactly when some internal Python operation of
the predictor would raise. -/
noncomputable def predictChecked (inputs : ForecastInputs) (now : String) :
    Option ForecastResponse :=
  let salesData := salesDataOf inputs
  if salesData.length < 7 then
    some (generateConservativeForecast inputs.product_id now)
  else do
    let baseForecasts ← calculateBaseForecastChecked salesData
    let adjusted ← applyExogenousSignalsChecked baseForecasts
      inputs.trends_data inputs.regulation_flags inputs.exogenous_factors
    let monthlyForecasts ← (List.range 12).mapM (fun (i : ℕ) => do
      let forecast := adjusted.getD i 0
      let score ← calculateConfidenceScoreChecked salesData (i + 1)
      pure
        { month := (i : ℤ) + 1
          predicted_quantity := truncQ forecast
          confidence_lower := truncQ (forecast * (4/5))
          confidence_upper := truncQ (forecast * (6/5))
          confidence_score := score : MonthlyForecast })
    pure
      { product_id := inputs.product_id
        forecast_date := now
        algorithm := "ensemble"
        model_version := "v1.0.0"
        forecasts := monthlyForecasts
        metadata :=
          [("data_points", MetaVal.int (salesData.length : ℤ)),
           ("trends_signals", MetaVal.int ((inputs.trends_data.getD []).length : ℤ)),
           ("regulation_flags", MetaVal.int ((inputs.regulation_flags.getD []).length : ℤ))] }

/-! ### Helper lemmas -/

theorem salesDataOf_length (inputs : ForecastInputs) :
    (salesDataOf inputs).length = inputs.sales_history.length := by
  simp [salesDataOf, parseSalesHistory]

theorem truncQ_of_nonneg {q : ℚ} (h : 0 ≤ q) : truncQ q = ⌊q⌋ := by
  simp [truncQ, h]

theorem truncQ_nonneg {q : ℚ} (h : 0 ≤ q) : 0 ≤ truncQ q := by
  rw [truncQ_of_nonneg h]
  exact Int.floor_nonneg.mpr h

theorem truncQ_le_truncQ {a b : ℚ} (ha : 0 ≤ a) (hab : a ≤ b) :
    truncQ a ≤ truncQ b := by
  rw [truncQ_of_nonneg ha, truncQ_of_nonneg (ha.trans hab)]
  exact Int.floor_le_floor hab

theorem getD_range_map_lt {α : Type} (n : ℕ) (f : ℕ → α) {i : ℕ} (hi : i < n) (d : α) :
    ((List.range n).map f).getD i d = f i := by
  rw [List.getD_eq_getElem?_getD]
  simp [List.getElem?_map, List.getElem?_range hi]

theorem getD_range_map_ge {α : Type} (n : ℕ) (f : ℕ → α) {i : ℕ} (hi : ¬ i < n) (d : α) :
    ((List.range n).map f).getD i d = d := by
  rw [List.getD_eq_getElem?_getD, List.getElem?_map, List.getElem?_eq_none]
  · rfl
  · simpa using Nat.le_of_not_lt hi

theorem getD_map_mul (l : List ℚ) (c : ℚ) (i : ℕ) :
    (l.map (fun x => x * c)).getD i 0 = l.getD i 0 * c := by
  induction l generalizing i with
  | nil => simp
  | cons x xs ih =>
    cases i with
    | zero => simp
    | succ j => simpa using ih j

/-- The per-month structure built on the conservative path. -/
noncomputable def conservativeMonth (i : ℕ) : MonthlyForecast :=
  { month := (i : ℤ) + 1
    predicted_quantity := 0
    confidence_lower := 0
    confidence_upper := 0
    confidence_score := (1/10 : ℝ) }

/-- The per-month structure built on the ensemble path. -/
noncomputable def ensembleMonth (inputs : ForecastInputs) (i : ℕ) : MonthlyForecast :=
  { month := (i : ℤ) + 1
    predicted_quantity := truncQ ((adjustedForecasts inputs).getD i 0)
    confidence_lower := truncQ ((adjustedForecasts inputs).getD i 0 * (4/5))
    confidence_upper := truncQ ((adjustedForecasts inputs).getD i 0 * (6/5))
    confidence_score := calculateConfidenceScore (salesDataOf inputs) (i + 1) }

theorem predict_forecasts_conservative {inputs : ForecastInputs} (now : String)
    (h7 : (salesDataOf inputs).length < 7) :
    (predict inputs now).forecasts = (List.range 12).map conservativeMonth := by
  rw [predict]
  simp only [h7, if_true]
  rfl

theorem predict_forecasts_ensemble {inputs : ForecastInputs} (now : String)
    (h7 : ¬ (salesDataOf inputs).length < 7) :
    (predict inputs now).forecasts = (List.range 12).map (ensembleMonth inputs) := by
  rw [predict]
  simp only [h7, if_false]
  rfl

/-- Extracting a member of `(predict inputs now).forecasts`: it is the image of
some month index `i < 12`. -/
theorem mem_predict_forecasts {inputs : ForecastInputs} {now : String}
    {mf : MonthlyForecast} (hmf : mf ∈ (predict inputs now).forecasts) :
    ∃ i : ℕ, i < 12 ∧
      (if (salesDataOf inputs).length < 7 then mf = conservativeMonth i
       else mf = ensembleMonth inputs i) := by
  by_cases h7 : (salesDataOf inputs).length < 7
  · rw [predict_forecasts_conservative now h7, List.mem_map] at hmf
    obtain ⟨i, hi, heq⟩ := hmf
    exact ⟨i, List.mem_range.mp hi, by rw [if_pos h7]; exact heq.symm⟩
  · rw [predict_forecasts_ensemble now h7, List.mem_map] at hmf
    obtain ⟨i, hi, heq⟩ := hmf
    exact ⟨i, List.mem_range.mp hi, by rw [if_neg h7]; exact heq.symm⟩

/-! ### C1: conservative fallback on insufficient data -/

/-- C1. For every `ForecastInputs` whose `sales_history` has fewer than 7
points, `predict` returns algorithm "conservative", exactly 12 monthly
forecasts, each with predicted_quantity = 0, confidence_lower = 0,
confidence_upper = 0 and confidence_score = 0.1, and metadata
`insufficient_data = true`. -/
theorem conservative_fallback_spec (inputs : ForecastInputs) (now : String)
    (h : inputs.sales_history.length < 7) :
    (predict inputs now).algorithm = "conservative" ∧
    (predict inputs now).forecasts.length = 12 ∧
    (∀ mf ∈ (predict inputs now).forecasts,
      mf.predicted_quantity = 0 ∧ mf.confidence_lower = 0 ∧
      mf.confidence_upper = 0 ∧ mf.confidence_score = (1/10 : ℝ)) ∧
    (predict inputs now).metadata = [("insufficient_data", MetaVal.bool true)] := by
  have h7 : (salesDataOf inputs).length < 7 := by rwa [salesDataOf_length]
  refine ⟨?_, ?_, ?_, ?_⟩
  · rw [predict]; simp [h7, generateConservativeForecast]
  · rw [predict_forecasts_conservative now h7, List.length_map, List.length_range]
  · intro mf hmf
    obtain ⟨i, _, heq⟩ := mem_predict_forecasts hmf
    rw [if_pos h7] at heq
    subst heq
    exact ⟨rfl, rfl, rfl, rfl⟩
  · rw [predict]; simp [h7, generateConservativeForecast]

/-- Witness for C1 at the empty sales history. -/
theorem conservative_fallback_spec_witness :
    (predict ⟨"p1", [], none, none, none⟩ "t").algorithm = "conservative" ∧
    (predict ⟨"p1", [], none, none, none⟩ "t").forecasts.length = 12 ∧
    (∀ mf ∈ (predict ⟨"p1", [], none, none, none⟩ "t").forecasts,
      mf.predicted_quantity = 0 ∧ mf.confidence_lower = 0 ∧
      mf.confidence_upper = 0 ∧ mf.confidence_score = (1/10 : ℝ)) ∧
    (predict ⟨"p1", [], none, none, none⟩ "t").metadata =
      [("insufficient_data", MetaVal.bool true)] :=
  conservative_fallback_spec ⟨"p1", [], none, none, none⟩ "t" (by simp)

/-! ### C10: on the conservative path the exogenous signals have no influence -/

/-- C10. Two inputs with the same `product_id` and the same short sales history
(fewer than 7 points) give identical responses for every choice of
`trends_data`, `regulation_flags` and `exogenous_factors` (the timestamp being
an explicit argument here, "apart from forecast_date" means: at equal
timestamps the responses are equal); the metadata carries only
`insufficient_data`, no signal counts. -/
theorem conservative_independent_of_signals (i₁ i₂ : ForecastInputs) (now : String)
    (hpid : i₁.product_id = i₂.product_id)
    (hhist : i₁.sales_history = i₂.sales_history)
    (hshort : i₁.sales_history.length < 7) :
    predict i₁ now = predict i₂ now ∧
    (predict i₁ now).metadata = [("insufficient_data", MetaVal.bool true)] := by
  have h7 : (salesDataOf i₁).length < 7 := by rwa [salesDataOf_length]
  have h7' : (salesDataOf i₂).length < 7 := by
    rwa [salesDataOf_length, ← hhist]
  constructor
  · rw [predict, predict, if_pos h7, if_pos h7', hpid]
  · rw [predict, if_pos h7]
    rfl

/-- Witness for C10: same product and empty history, one input carrying trend,
regulation and exogenous data, the other none. -/
theorem conservative_independent_of_signals_witness :
    predict ⟨"p1", [], some [⟨"kw", "2024-01", 99⟩],
        some [⟨"r1", 1, "negative"⟩], some [("k", "v")]⟩ "t" =
      predict ⟨"p1", [], none, none, none⟩ "t" ∧
    (predict ⟨"p1", [], some [⟨"kw", "2024-01", 99⟩],
        some [⟨"r1", 1, "negative"⟩], some [("k", "v")]⟩ "t").metadata =
      [("insufficient_data", MetaVal.bool true)] :=
  conservative_independent_of_signals
    ⟨"p1", [], some [⟨"kw", "2024-01", 99⟩], some [⟨"r1", 1, "negative"⟩],
      some [("k", "v")]⟩
    ⟨"p1", [], none, none, none⟩ "t" rfl rfl (by simp)

/-! ### C5: tier selection and fixed bundles of the Strategy Engine -/

/-- C5. The tier is selected from `predicted_quantity` alone with exclusive
upper boundaries (0 → no-demand, < 50 → low, < 200 → medium, ≥ 200 → high),
and each tier's bundle carries the fixed pricing action, inventory target,
marketing budget and priority of the source. -/
theorem tier_selection_spec (mf : MonthlyForecast)
    (pinfo : Option (List (String × String))) :
    (mf.predicted_quantity = 0 →
      generateMonthlyStrategy mf pinfo = noDemandStrategy mf.month) ∧
    (mf.predicted_quantity ≠ 0 → mf.predicted_quantity < 50 →
      generateMonthlyStrategy mf pinfo = lowDemandStrategy mf pinfo) ∧
    (50 ≤ mf.predicted_quantity → mf.predicted_quantity < 200 →
      generateMonthlyStrategy mf pinfo = mediumDemandStrategy mf pinfo) ∧
    (200 ≤ mf.predicted_quantity →
      generateMonthlyStrategy mf pinfo = highDemandStrategy mf pinfo) ∧
    ((noDemandStrategy mf.month).actions.pricing.action = "reduce" ∧
      (noDemandStrategy mf.month).actions.pricing.percentage = 10 ∧
      (noDemandStrategy mf.month).actions.inventory.quantity = 0 ∧
      (noDemandStrategy mf.month).actions.marketing.budget = 200000 ∧
      (noDemandStrategy mf.month).priority = "low") ∧
    ((lowDemandStrategy mf pinfo).actions.pricing.action = "maintain" ∧
      (lowDemandStrategy mf pinfo).actions.inventory.quantity = mf.predicted_quantity ∧
      (lowDemandStrategy mf pinfo).actions.marketing.budget = 300000 ∧
      (lowDemandStrategy mf pinfo).priority = "medium") ∧
    ((mediumDemandStrategy mf pinfo).actions.pricing.action = "maintain" ∧
      (mediumDemandStrategy mf pinfo).actions.inventory.quantity =
        mf.predicted_quantity + 20 ∧
      (mediumDemandStrategy mf pinfo).actions.marketing.budget = 500000 ∧
      (mediumDemandStrategy mf pinfo).priority = "medium") ∧
    ((highDemandStrategy mf pinfo).actions.pricing.action = "increase" ∧
      (highDemandStrategy mf pinfo).actions.pricing.percentage = 5 ∧
      (highDemandStrategy mf pinfo).actions.inventory.quantity =
        mf.predicted_quantity + 50 ∧
      (highDemandStrategy mf pinfo).actions.marketing.budget = 1000000 ∧
      (highDemandStrategy mf pinfo).priority = "high") := by
  refine ⟨?_, ?_, ?_, ?_, ?_, ?_, ?_, ?_⟩
  · intro h0
    rw [generateMonthlyStrategy, if_pos h0]
  · intro h0 h50
    rw [generateMonthlyStrategy, if_neg h0, if_pos h50]
  · intro h50 h200
    rw [generateMonthlyStrategy, if_neg (by omega), if_neg (by omega), if_pos h200]
  · intro h200
    rw [generateMonthlyStrategy, if_neg (by omega), if_neg (by omega),
      if_neg (by omega)]
  · exact ⟨rfl, rfl, rfl, rfl, rfl⟩
  · exact ⟨rfl, rfl, rfl, rfl⟩
  · exact ⟨rfl, rfl, rfl, rfl⟩
  · exact ⟨rfl, rfl, rfl, rfl, rfl⟩

/-- Witness for C5 at the tier boundaries 0, 49, 50, 199, 200. -/
theorem tier_selection_spec_witness :
    generateMonthlyStrategy ⟨1, 0, 0, 0, 0⟩ none = noDemandStrategy 1 ∧
    generateMonthlyStrategy ⟨1, 49, 39, 58, 0⟩ none =
      lowDemandStrategy ⟨1, 49, 39, 58, 0⟩ none ∧
    generateMonthlyStrategy ⟨1, 50, 40, 60, 0⟩ none =
      mediumDemandStrategy ⟨1, 50, 40, 60, 0⟩ none ∧
    generateMonthlyStrategy ⟨1, 199, 159, 238, 0⟩ none =
      mediumDemandStrategy ⟨1, 199, 159, 238, 0⟩ none ∧
    generateMonthlyStrategy ⟨1, 200, 160, 240, 0⟩ none =
      highDemandStrategy ⟨1, 200, 160, 240, 0⟩ none :=
  ⟨(tier_selection_spec ⟨1, 0, 0, 0, 0⟩ none).1 rfl,
   (tier_selection_spec ⟨1, 49, 39, 58, 0⟩ none).2.1 (by decide) (by decide),
   (tier_selection_spec ⟨1, 50, 40, 60, 0⟩ none).2.2.1 (by decide) (by decide),
   (tier_selection_spec ⟨1, 199, 159, 238, 0⟩ none).2.2.1 (by decide) (by decide),
   (tier_selection_spec ⟨1, 200, 160, 240, 0⟩ none).2.2.2.1 (by decide)⟩

/-! ### C9: negative predicted quantities take the low-demand tier -/

/-- C9. A strictly negative `predicted_quantity` yields the low-demand bundle
(pricing maintain, priority "medium", inventory target equal to the negative
quantity), and the no-demand bundle is produced exactly when the quantity
is 0. -/
theorem negative_quantity_low_tier (mf : MonthlyForecast)
    (pinfo : Option (List (String × String)))
    (hneg : mf.predicted_quantity < 0) :
    generateMonthlyStrategy mf pinfo = lowDemandStrategy mf pinfo ∧
    (generateMonthlyStrategy mf pinfo).actions.pricing.action = "maintain" ∧
    (generateMonthlyStrategy mf pinfo).priority = "medium" ∧
    (generateMonthlyStrategy mf pinfo).actions.inventory.quantity =
      mf.predicted_quantity ∧
    (∀ mf' : MonthlyForecast,
      generateMonthlyStrategy mf' pinfo = noDemandStrategy mf'.month ↔
        mf'.predicted_quantity = 0) := by
  have hlow : generateMonthlyStrategy mf pinfo = lowDemandStrategy mf pinfo := by
    rw [generateMonthlyStrategy, if_neg (by omega), if_pos (by omega)]
  refine ⟨hlow, by rw [hlow]; rfl, by rw [hlow]; rfl, by rw [hlow]; rfl, ?_⟩
  intro mf'
  constructor
  · intro heq
    by_contra h0
    rw [generateMonthlyStrategy, if_neg h0] at heq
    by_cases h50 : mf'.predicted_quantity < 50
    · rw [if_pos h50] at heq
      have := congrArg (fun s => s.actions.pricing.action) heq
      simp [lowDemandStrategy, noDemandStrategy] at this
    · rw [if_neg h50] at heq
      by_cases h200 : mf'.predicted_quantity < 200
      · rw [if_pos h200] at heq
        have := congrArg (fun s => s.actions.pricing.action) heq
        simp [mediumDemandStrategy, noDemandStrategy] at this
      · rw [if_neg h200] at heq
        have := congrArg (fun s => s.actions.pricing.action) heq
        simp [highDemandStrategy, noDemandStrategy] at this
  · intro h0
    rw [generateMonthlyStrategy, if_pos h0]

/-- Witness for C9 at predicted_quantity = -5. -/
theorem negative_quantity_low_tier_witness :
    generateMonthlyStrategy ⟨2, -5, 0, 0, 0⟩ none =
      lowDemandStrategy ⟨2, -5, 0, 0, 0⟩ none ∧
    (generateMonthlyStrategy ⟨2, -5, 0, 0, 0⟩ none).actions.pricing.action =
      "maintain" ∧
    (generateMonthlyStrategy ⟨2, -5, 0, 0, 0⟩ none).priority = "medium" ∧
    (generateMonthlyStrategy ⟨2, -5, 0, 0, 0⟩ none).actions.inventory.quantity =
      (-5 : ℤ) ∧
    (∀ mf' : MonthlyForecast,
      generateMonthlyStrategy mf' none = noDemandStrategy mf'.month ↔
        mf'.predicted_quantity = 0) :=
  negative_quantity_low_tier ⟨2, -5, 0, 0, 0⟩ none (by decide)

/-! ### C8: the confidence score always lies in [0.1, 1.0] -/

theorem calculateConfidenceScore_bounds (data : List ℚ) (month : ℕ) :
    (1/10 : ℝ) ≤ calculateConfidenceScore data month ∧
      calculateConfidenceScore data month ≤ 1 := by
  rw [calculateConfidenceScore]
  by_cases h7 : data.length < 7
  · rw [if_pos h7]
    norm_num
  · rw [if_neg h7]
    constructor
    · exact le_max_left _ _
    · exact max_le (by norm_num) (min_le_left _ _)

/-- C8. Every month of every response returned by `predict` — ensemble or
conservative path — has a confidence score in the closed interval [0.1, 1.0]. -/
theorem confidence_range_spec (inputs : ForecastInputs) (now : String)
    (mf : MonthlyForecast) (hmf : mf ∈ (predict inputs now).forecasts) :
    (1/10 : ℝ) ≤ mf.confidence_score ∧ mf.confidence_score ≤ 1 := by
  obtain ⟨i, _, heq⟩ := mem_predict_forecasts hmf
  by_cases h7 : (salesDataOf inputs).length < 7
  · rw [if_pos h7] at heq
    subst heq
    exact ⟨le_refl _, by norm_num [conservativeMonth]⟩
  · rw [if_neg h7] at heq
    subst heq
    exact calculateConfidenceScore_bounds (salesDataOf inputs) (i + 1)

/-- Witness for C8: the first month of the conservative response to an empty
history. -/
theorem confidence_range_spec_witness :
    (1/10 : ℝ) ≤ (conservativeMonth 0).confidence_score ∧
      (conservativeMonth 0).confidence_score ≤ 1 :=
  confidence_range_spec ⟨"p1", [], none, none, none⟩ "t" (conservativeMonth 0)
    (by rw [predict_forecasts_conservative "t" (by decide)]
        exact List.mem_map.mpr ⟨0, by simp, rfl⟩)

/-! ### Glue between `predict` and its computable integer projections -/

theorem predict_fields (inputs : ForecastInputs) (now : String) :
    (predict inputs now).forecasts.map
        (fun mf => (mf.month, mf.predicted_quantity, mf.confidence_lower,
          mf.confidence_upper)) =
      forecastFields inputs := by
  by_cases h7 : (salesDataOf inputs).length < 7
  · rw [predict_forecasts_conservative now h7, forecastFields, if_pos h7,
      List.map_map]
    rfl
  · rw [predict_forecasts_ensemble now h7, forecastFields, if_neg h7,
      List.map_map]
    rfl

theorem predict_quantities (inputs : ForecastInputs) (now : String) :
    (predict inputs now).forecasts.map (fun mf => mf.predicted_quantity) =
      predictedQuantities inputs := by
  rw [predictedQuantities, ← predict_fields inputs now, List.map_map]
  rfl

theorem predict_pq_lower (inputs : ForecastInputs) (now : String) :
    (predict inputs now).forecasts.map
        (fun mf => (mf.predicted_quantity, mf.confidence_lower)) =
      (forecastFields inputs).map (fun x => (x.2.1, x.2.2.1)) := by
  rw [← predict_fields inputs now, List.map_map]
  rfl

/-! ### Concrete inputs used by counterexamples and witnesses -/

/-- Seven days of quantity 3 each: the realized month-1 raw forecast is
91.32, whose truncated 0.8-bound (73) differs from floor(0.8 × 91) = 72. -/
def threePerDay : ForecastInputs :=
  ⟨"p1", [⟨"d1", 3⟩, ⟨"d2", 3⟩, ⟨"d3", 3⟩, ⟨"d4", 3⟩, ⟨"d5", 3⟩, ⟨"d6", 3⟩,
    ⟨"d7", 3⟩], none, none, none⟩

/-- Seven days of quantity 10 each, no exogenous signals. -/
def tenPerDay : ForecastInputs :=
  ⟨"p1", [⟨"d1", 10⟩, ⟨"d2", 10⟩, ⟨"d3", 10⟩, ⟨"d4", 10⟩, ⟨"d5", 10⟩, ⟨"d6", 10⟩,
    ⟨"d7", 10⟩], none, none, none⟩

/-- The same run as `tenPerDay` with one fully relevant negative regulation
flag. -/
def tenPerDayNegFlag : ForecastInputs :=
  ⟨"p1", [⟨"d1", 10⟩, ⟨"d2", 10⟩, ⟨"d3", 10⟩, ⟨"d4", 10⟩, ⟨"d5", 10⟩, ⟨"d6", 10⟩,
    ⟨"d7", 10⟩], none, some [⟨"r1", 1, "negative"⟩], none⟩

/-- A non-negative history (one spike then six zero days) whose OLS trend
projection is strongly negative, driving the ensemble below zero. -/
def spikeThenZero : ForecastInputs :=
  ⟨"p1", [⟨"d1", 100⟩, ⟨"d2", 0⟩, ⟨"d3", 0⟩, ⟨"d4", 0⟩, ⟨"d5", 0⟩, ⟨"d6", 0⟩,
    ⟨"d7", 0⟩], none, none, none⟩

/-! ### Evaluation lemmas for the concrete inputs -/

theorem salesData_threePerDay : salesDataOf threePerDay = [3, 3, 3, 3, 3, 3, 3] := by
  norm_num [salesDataOf, parseSalesHistory, threePerDay]

theorem salesData_tenPerDay : salesDataOf tenPerDay = [10, 10, 10, 10, 10, 10, 10] := by
  norm_num [salesDataOf, parseSalesHistory, tenPerDay]

theorem salesData_tenPerDayNegFlag :
    salesDataOf tenPerDayNegFlag = [10, 10, 10, 10, 10, 10, 10] := by
  norm_num [salesDataOf, parseSalesHistory, tenPerDayNegFlag]

theorem salesData_spikeThenZero :
    salesDataOf spikeThenZero = [100, 0, 0, 0, 0, 0, 0] := by
  norm_num [salesDataOf, parseSalesHistory, spikeThenZero]

theorem range7_eq : List.range 7 = [0, 1, 2, 3, 4, 5, 6] := rfl

/-- The ensemble base of a constant 7-day history is the constant itself. -/
theorem baseDaily_const7 (q : ℚ) : baseDaily [q, q, q, q, q, q, q] = q := by
  rw [baseDaily]
  norm_num [simpleMovingAverage, exponentialSmoothing, trendProjection,
    seasonalAdjustment, range7_eq, List.foldl, List.getD, List.sum_cons]
  ring

theorem baseDaily_spikeThenZero :
    baseDaily (salesDataOf spikeThenZero) = -9279371/700000 := by
  rw [salesData_spikeThenZero, baseDaily]
  norm_num [simpleMovingAverage, exponentialSmoothing, trendProjection,
    seasonalAdjustment, range7_eq, List.foldl, List.getD, List.sum_cons]

theorem applyExogenousSignals_none_none (base : List ℚ)
    (exo : Option (List (String × String))) :
    applyExogenousSignals base none none exo = base := rfl

theorem adjustedForecasts_no_signals (inputs : ForecastInputs)
    (ht : inputs.trends_data = none) (hr : inputs.regulation_flags = none) :
    adjustedForecasts inputs = calculateBaseForecast (salesDataOf inputs) := by
  rw [adjustedForecasts, ht, hr]
  exact applyExogenousSignals_none_none _ _

theorem calculateBaseForecast_getD (data : List ℚ) {i : ℕ} (hi : i < 12) :
    (calculateBaseForecast data).getD i 0 =
      monthlyBase data * (1 - (i : ℚ) * (1/50)) := by
  rw [calculateBaseForecast]
  exact getD_range_map_lt 12 _ hi 0

/-! ### C3: confidence bounds -/

/-- C3 counterexample. On `threePerDay` the month-1 forecast has
predicted_quantity = 91 and confidence_lower = 73, but
floor(0.8 × predicted_quantity) = 72: the bounds are truncations of
0.8/1.2 times the raw (pre-truncation) forecast, not of the truncated
predicted quantity. -/
theorem confidence_bounds_claim_false :
    ((predict threePerDay "t").forecasts.map
        (fun mf => (mf.predicted_quantity, mf.confidence_lower))).getD 0 (0, 0) =
      (91, 73) ∧
    (73 : ℤ) ≠ ⌊(4/5 : ℚ) * ((91 : ℤ) : ℚ)⌋ := by
  constructor
  · rw [predict_pq_lower, forecastFields, if_neg (by decide), List.map_map]
    rw [getD_range_map_lt 12 _ (by norm_num) ((0 : ℤ), (0 : ℤ))]
    simp only [Function.comp]
    rw [adjustedForecasts_no_signals threePerDay rfl rfl,
      calculateBaseForecast_getD _ (by norm_num), monthlyBase,
      salesData_threePerDay, baseDaily_const7]
    norm_num [truncQ]
  · norm_num

/-- C3 amended. On the conservative path all three fields are 0. On the
ensemble path, for each month `i` the bounds are truncations toward zero of
0.8 and 1.2 times the raw adjusted forecast of that month (not of the
truncated predicted quantity), and whenever that raw forecast is
non-negative, confidence_lower ≤ predicted_quantity ≤ confidence_upper. -/
theorem confidence_bounds_amended (inputs : ForecastInputs) (now : String) :
    ((salesDataOf inputs).length < 7 →
      ∀ mf ∈ (predict inputs now).forecasts,
        mf.predicted_quantity = 0 ∧ mf.confidence_lower = 0 ∧
        mf.confidence_upper = 0) ∧
    (¬ (salesDataOf inputs).length < 7 →
      ∀ mf ∈ (predict inputs now).forecasts, ∃ i : ℕ, i < 12 ∧
        mf.confidence_lower = truncQ ((adjustedForecasts inputs).getD i 0 * (4/5)) ∧
        mf.confidence_upper = truncQ ((adjustedForecasts inputs).getD i 0 * (6/5)) ∧
        mf.predicted_quantity = truncQ ((adjustedForecasts inputs).getD i 0) ∧
        (0 ≤ (adjustedForecasts inputs).getD i 0 →
          mf.confidence_lower ≤ mf.predicted_quantity ∧
          mf.predicted_quantity ≤ mf.confidence_upper)) := by
  constructor
  · intro h7 mf hmf
    obtain ⟨i, _, heq⟩ := mem_predict_forecasts hmf
    rw [if_pos h7] at heq
    subst heq
    exact ⟨rfl, rfl, rfl⟩
  · intro h7 mf hmf
    obtain ⟨i, hi, heq⟩ := mem_predict_forecasts hmf
    rw [if_neg h7] at heq
    subst heq
    refine ⟨i, hi, rfl, rfl, rfl, ?_⟩
    intro hf
    constructor
    · exact truncQ_le_truncQ (by linarith) (by linarith)
    · exact truncQ_le_truncQ hf (by linarith)

/-- Witness for C3 amended: month 1 of the `threePerDay` run. -/
theorem confidence_bounds_amended_witness :
    ∃ i : ℕ, i < 12 ∧
      (ensembleMonth threePerDay 0).confidence_lower =
        truncQ ((adjustedForecasts threePerDay).getD i 0 * (4/5)) ∧
      (ensembleMonth threePerDay 0).confidence_upper =
        truncQ ((adjustedForecasts threePerDay).getD i 0 * (6/5)) ∧
      (ensembleMonth threePerDay 0).predicted_quantity =
        truncQ ((adjustedForecasts threePerDay).getD i 0) ∧
      (0 ≤ (adjustedForecasts threePerDay).getD i 0 →
        (ensembleMonth threePerDay 0).confidence_lower ≤
          (ensembleMonth threePerDay 0).predicted_quantity ∧
        (ensembleMonth threePerDay 0).predicted_quantity ≤
          (ensembleMonth threePerDay 0).confidence_upper) :=
  (confidence_bounds_amended threePerDay "t").2 (by decide)
    (ensembleMonth threePerDay 0)
    (by rw [predict_forecasts_ensemble "t" (by decide)]
        exact List.mem_map.mpr ⟨0, by simp, rfl⟩)

/-! ### C4: predicted quantities and non-negativity -/

/-- C4 counterexample. Every quantity of `spikeThenZero`'s history is a
non-negative integer, yet the month-1 predicted_quantity of `predict` is
-403 < 0: the strongly negative trend projection drives the weighted ensemble
below zero. -/
theorem nonneg_quantity_claim_false :
    (spikeThenZero.sales_history.all (fun p => decide (0 ≤ p.quantity))) = true ∧
    ((predict spikeThenZero "t").forecasts.map
        (fun mf => mf.predicted_quantity)).getD 0 0 = -403 ∧
    (-403 : ℤ) < 0 := by
  refine ⟨by decide, ?_, by decide⟩
  rw [predict_quantities, predictedQuantities, forecastFields, if_neg (by decide),
    List.map_map]
  rw [getD_range_map_lt 12 _ (by norm_num) (0 : ℤ)]
  simp only [Function.comp]
  rw [adjustedForecasts_no_signals spikeThenZero rfl rfl,
    calculateBaseForecast_getD _ (by norm_num), monthlyBase, baseDaily_spikeThenZero]
  rw [truncQ, if_neg (by norm_num)]
  rw [show ((-403 : ℤ)) = (-403 : ℤ) from rfl, Int.ceil_eq_iff]
  constructor <;> norm_num

/-! ### Bounds on the exogenous impacts -/

theorem calculateTrendImpact_bounds (ts : List TrendSignal)
    (h : ∀ t ∈ ts, (0 : ℤ) ≤ t.value ∧ t.value ≤ 100) :
    -(1/10 : ℚ) ≤ calculateTrendImpact ts ∧ calculateTrendImpact ts ≤ 1/10 := by
  rw [calculateTrendImpact]
  by_cases he : ts.isEmpty
  · rw [if_pos he]; norm_num
  · rw [if_neg he]
    have hne : ts ≠ [] := by simpa [List.isEmpty_iff] using he
    have hlen : (0 : ℚ) < (ts.length : ℚ) := by
      exact_mod_cast List.length_pos.mpr hne
    have hsl : 0 ≤ (ts.map (fun t => (t.value : ℚ))).sum := by
      apply List.sum_nonneg
      intro x hx
      obtain ⟨t, ht, rfl⟩ := List.mem_map.mp hx
      exact_mod_cast (h t ht).1
    have hsu : (ts.map (fun t => (t.value : ℚ))).sum ≤ (ts.length : ℚ) * 100 := by
      have := List.sum_le_card_nsmul (ts.map (fun t => (t.value : ℚ))) 100 ?_
      · simpa [nsmul_eq_mul] using this
      · intro x hx
        obtain ⟨t, ht, rfl⟩ := List.mem_map.mp hx
        exact_mod_cast (h t ht).2
    have ha0 : 0 ≤ (ts.map (fun t => (t.value : ℚ))).sum / (ts.length : ℚ) :=
      div_nonneg hsl hlen.le
    have ha100 : (ts.map (fun t => (t.value : ℚ))).sum / (ts.length : ℚ) ≤ 100 :=
      (div_le_iff₀ hlen).mpr (by linarith)
    constructor <;> linarith

theorem regulationFlagImpact_bounds (f : RegulationFlag)
    (h0 : 0 ≤ f.relevance_score) (h1 : f.relevance_score ≤ 1) :
    -(1/20 : ℚ) ≤ regulationFlagImpact f ∧ regulationFlagImpact f ≤ 1/20 := by
  rw [regulationFlagImpact]
  split_ifs <;> constructor <;> linarith

theorem calculateRegulationImpact_bounds (rs : List RegulationFlag)
    (h : ∀ f ∈ rs, 0 ≤ f.relevance_score ∧ f.relevance_score ≤ 1) :
    -(1/20 : ℚ) ≤ calculateRegulationImpact rs ∧
      calculateRegulationImpact rs ≤ 1/20 := by
  rw [calculateRegulationImpact]
  by_cases he : rs.isEmpty
  · rw [if_pos he]; norm_num
  · rw [if_neg he]
    have hne : rs ≠ [] := by simpa [List.isEmpty_iff] using he
    have hlen : (0 : ℚ) < (rs.length : ℚ) := by
      exact_mod_cast List.length_pos.mpr hne
    have hsl : -((rs.length : ℚ) * (1/20)) ≤ (rs.map regulationFlagImpact).sum := by
      have := List.card_nsmul_le_sum (rs.map regulationFlagImpact) (-(1/20)) ?_
      · simpa [nsmul_eq_mul, neg_mul, mul_comm] using this
      · intro x hx
        obtain ⟨f, hf, rfl⟩ := List.mem_map.mp hx
        exact (regulationFlagImpact_bounds f (h f hf).1 (h f hf).2).1
    have hsu : (rs.map regulationFlagImpact).sum ≤ (rs.length : ℚ) * (1/20) := by
      have := List.sum_le_card_nsmul (rs.map regulationFlagImpact) (1/20) ?_
      · simpa [nsmul_eq_mul] using this
      · intro x hx
        obtain ⟨f, hf, rfl⟩ := List.mem_map.mp hx
        exact (regulationFlagImpact_bounds f (h f hf).1 (h f hf).2).2
    constructor
    · rw [le_div_iff₀ hlen]
      linarith
    · rw [div_le_iff₀ hlen]
      linarith

/-! ### Non-negativity of the adjusted forecasts under bounded signals -/

theorem calculateBaseForecast_getD_nonneg (data : List ℚ)
    (hb : 0 ≤ baseDaily data) (i : ℕ) :
    0 ≤ (calculateBaseForecast data).getD i 0 := by
  have hmB : 0 ≤ monthlyBase data := by
    rw [monthlyBase]; exact mul_nonneg hb (by norm_num)
  by_cases hi : i < 12
  · rw [calculateBaseForecast_getD data hi]
    have hc : (i : ℚ) ≤ 11 := by exact_mod_cast (by omega : i ≤ 11)
    apply mul_nonneg hmB
    linarith
  · rw [calculateBaseForecast, getD_range_map_ge 12 _ hi 0]

theorem applyExogenousSignals_getD_nonneg (base : List ℚ)
    (trends : Option (List TrendSignal)) (regs : Option (List RegulationFlag))
    (exo : Option (List (String × String)))
    (hlen : base.length ≤ 12)
    (hbase : ∀ j, 0 ≤ base.getD j 0)
    (htr : ∀ ts, trends = some ts → ∀ t ∈ ts, (0 : ℤ) ≤ t.value ∧ t.value ≤ 100)
    (hreg : ∀ rs, regs = some rs →
      ∀ f ∈ rs, 0 ≤ f.relevance_score ∧ f.relevance_score ≤ 1)
    (i : ℕ) :
    0 ≤ (applyExogenousSignals base trends regs exo).getD i 0 := by
  have hwt : ∀ j, 0 ≤ (applyTrendSignals base trends).getD j 0 := by
    intro j
    cases trends with
    | none => exact hbase j
    | some ts =>
      rw [applyTrendSignals]
      by_cases he : ts.isEmpty
      · rw [if_pos he]; exact hbase j
      · rw [if_neg he]
        by_cases hj : j < base.length
        · rw [getD_range_map_lt base.length _ hj 0]
          obtain ⟨hti1, hti2⟩ := calculateTrendImpact_bounds ts (htr ts rfl)
          have hd1 : (1 : ℚ) - (j : ℚ) * (1/20) ≤ 1 := by
            have : (0 : ℚ) ≤ (j : ℚ) := by positivity
            linarith
          have hd0 : (0 : ℚ) ≤ 1 - (j : ℚ) * (1/20) := by
            have : (j : ℚ) ≤ 11 := by
              exact_mod_cast (by omega : j ≤ 11)
            linarith
          apply mul_nonneg (hbase j)
          nlinarith [mul_nonneg (by linarith : (0:ℚ) ≤ calculateTrendImpact ts + 1/10) hd0]
        · rw [getD_range_map_ge base.length _ hj 0]
  rw [applyExogenousSignals]
  cases regs with
  | none => exact hwt i
  | some rs =>
    rw [applyRegulationFlags]
    by_cases he : rs.isEmpty
    · rw [if_pos he]; exact hwt i
    · rw [if_neg he, getD_map_mul]
      obtain ⟨hri, _⟩ := calculateRegulationImpact_bounds rs (hreg rs rfl)
      exact mul_nonneg (hwt i) (by linarith)

theorem adjustedForecasts_getD_nonneg (inputs : ForecastInputs)
    (hb : 0 ≤ baseDaily (salesDataOf inputs))
    (htr : ∀ ts, inputs.trends_data = some ts →
      ∀ t ∈ ts, (0 : ℤ) ≤ t.value ∧ t.value ≤ 100)
    (hreg : ∀ rs, inputs.regulation_flags = some rs →
      ∀ f ∈ rs, 0 ≤ f.relevance_score ∧ f.relevance_score ≤ 1)
    (i : ℕ) :
    0 ≤ (adjustedForecasts inputs).getD i 0 := by
  rw [adjustedForecasts]
  apply applyExogenousSignals_getD_nonneg _ _ _ _ _ _ htr hreg
  · rw [calculateBaseForecast, List.length_map, List.length_range]
  · exact calculateBaseForecast_getD_nonneg _ hb

/-- C4 amended. When the ensemble base daily forecast is non-negative and the
exogenous signals respect their documented ranges (trend values in [0, 100],
relevance scores in [0, 1]), every predicted_quantity returned by `predict` is
non-negative. (Without the base-forecast hypothesis the claim is false: see
the counterexample, where a strongly negative trend projection makes the
ensemble negative.) -/
theorem nonneg_quantity_amended (inputs : ForecastInputs) (now : String)
    (hb : 0 ≤ baseDaily (salesDataOf inputs))
    (htr : ∀ ts, inputs.trends_data = some ts →
      ∀ t ∈ ts, (0 : ℤ) ≤ t.value ∧ t.value ≤ 100)
    (hreg : ∀ rs, inputs.regulation_flags = some rs →
      ∀ f ∈ rs, 0 ≤ f.relevance_score ∧ f.relevance_score ≤ 1) :
    ∀ mf ∈ (predict inputs now).forecasts, 0 ≤ mf.predicted_quantity := by
  intro mf hmf
  obtain ⟨i, _, heq⟩ := mem_predict_forecasts hmf
  by_cases h7 : (salesDataOf inputs).length < 7
  · rw [if_pos h7] at heq
    subst heq
    exact le_refl 0
  · rw [if_neg h7] at heq
    subst heq
    exact truncQ_nonneg (adjustedForecasts_getD_nonneg inputs hb htr hreg i)

/-- Witness for C4 amended: month 1 of the 7×10 run with one negative flag of
relevance 1. -/
theorem nonneg_quantity_amended_witness :
    0 ≤ (ensembleMonth tenPerDayNegFlag 0).predicted_quantity :=
  nonneg_quantity_amended tenPerDayNegFlag "t"
    (by rw [salesData_tenPerDayNegFlag, baseDaily_const7]; norm_num)
    (by intro ts h; cases h)
    (by intro rs hrs f hf
        rw [show tenPerDayNegFlag.regulation_flags =
          some [⟨"r1", 1, "negative"⟩] from rfl] at hrs
        cases hrs
        simp only [List.mem_singleton] at hf
        subst hf
        norm_num)
    (ensembleMonth tenPerDayNegFlag 0)
    (by rw [predict_forecasts_ensemble "t" (by decide)]
        exact List.mem_map.mpr ⟨0, by simp, rfl⟩)

/-! ### C6: uniform regulation factor -/

/-- Presence of a non-empty flag list multiplies every month by the same
factor `1 + regulation_impact`, relative to the run without flags. -/
theorem applyExo_regs_factor (base : List ℚ) (trends : Option (List TrendSignal))
    (rs : List RegulationFlag) (exo : Option (List (String × String)))
    (hrs : rs ≠ []) (i : ℕ) :
    (applyExogenousSignals base trends (some rs) exo).getD i 0 =
      (applyExogenousSignals base trends none exo).getD i 0 *
        (1 + calculateRegulationImpact rs) := by
  rw [applyExogenousSignals, applyExogenousSignals, applyRegulationFlags,
    applyRegulationFlags, if_neg (by simpa [List.isEmpty_iff] using hrs),
    getD_map_mul]

/-- The effective impact of one fully relevant negative flag is -0.05. -/
theorem regImpact_single_negative :
    calculateRegulationImpact [⟨"r1", 1, "negative"⟩] = -(1/20) := by
  rw [calculateRegulationImpact, if_neg (by simp)]
  have h1 : regulationFlagImpact ⟨"r1", 1, "negative"⟩ = -(1/20) := by
    rw [regulationFlagImpact, if_neg (by decide), if_pos rfl]
    norm_num
  rw [List.map_cons, List.map_nil, List.sum_cons, List.sum_nil, h1]
  norm_num

/-- `truncQ` strictly decreases under the factor 19/20 whenever the raw value
is at least 20 (so the 5% cut spans at least one integer). -/
theorem truncQ_mul_nineteen_twentieths_lt {x : ℚ} (hx : 20 ≤ x) :
    truncQ (x * (19/20)) < truncQ x := by
  rw [truncQ_of_nonneg (by linarith), truncQ_of_nonneg (by linarith)]
  have h1 : x * (19/20) ≤ x - 1 := by linarith
  have h2 : ⌊x * (19/20)⌋ ≤ ⌊x - 1⌋ := Int.floor_le_floor h1
  have h3 : ⌊x - 1⌋ = ⌊x⌋ - 1 := by
    rw [show x - 1 = x + (-1 : ℤ) by push_cast; ring, Int.floor_add_int]
    ring
  omega

theorem monthlyBase_tenPerDayNegFlag :
    monthlyBase (salesDataOf tenPerDayNegFlag) = 1522/5 := by
  rw [monthlyBase, salesData_tenPerDayNegFlag, baseDaily_const7]
  norm_num

theorem monthlyBase_tenPerDay : monthlyBase (salesDataOf tenPerDay) = 1522/5 := by
  rw [monthlyBase, salesData_tenPerDay, baseDaily_const7]
  norm_num

/-- C6. (i) With a non-empty flag list, every month of the adjusted forecast
equals the corresponding month of the flag-free run times the uniform factor
`1 + r`, where `r = calculateRegulationImpact` sums `±relevance_score×0.05`
(0 for neutral) and divides by the total flag count. (ii) A single flag
`{relevance_score: 1, impact: "negative"}` gives `r = -0.05` (factor 0.95).
(iii) On the concrete 7×10 run, that flag produces a strictly lower
predicted_quantity in every one of the 12 months. -/
theorem regulation_factor_spec :
    (∀ (base : List ℚ) (trends : Option (List TrendSignal))
        (rs : List RegulationFlag) (exo : Option (List (String × String))) (i : ℕ),
      rs ≠ [] →
      (applyExogenousSignals base trends (some rs) exo).getD i 0 =
        (applyExogenousSignals base trends none exo).getD i 0 *
          (1 + calculateRegulationImpact rs)) ∧
    calculateRegulationImpact [⟨"r1", 1, "negative"⟩] = -(1/20) ∧
    (∀ i : ℕ, i < 12 →
      ((predict tenPerDayNegFlag "t").forecasts.map
          (fun mf => mf.predicted_quantity)).getD i 0 <
        ((predict tenPerDay "t").forecasts.map
          (fun mf => mf.predicted_quantity)).getD i 0) := by
  refine ⟨fun base trends rs exo i hrs => applyExo_regs_factor base trends rs exo hrs i,
    regImpact_single_negative, ?_⟩
  intro i hi
  rw [predict_quantities, predict_quantities, predictedQuantities, predictedQuantities,
    forecastFields, forecastFields, if_neg (by decide), if_neg (by decide),
    List.map_map, List.map_map, getD_range_map_lt 12 _ hi 0,
    getD_range_map_lt 12 _ hi 0]
  show truncQ ((adjustedForecasts tenPerDayNegFlag).getD i 0) <
    truncQ ((adjustedForecasts tenPerDay).getD i 0)
  have hL : (adjustedForecasts tenPerDayNegFlag).getD i 0 =
      (calculateBaseForecast (salesDataOf tenPerDayNegFlag)).getD i 0 * (19/20) := by
    rw [adjustedForecasts,
      show tenPerDayNegFlag.trends_data = none from rfl,
      show tenPerDayNegFlag.regulation_flags = some [⟨"r1", 1, "negative"⟩] from rfl,
      applyExo_regs_factor _ _ _ _ (by simp) i, applyExogenousSignals_none_none,
      regImpact_single_negative]
    norm_num
  have hR : (adjustedForecasts tenPerDay).getD i 0 =
      monthlyBase (salesDataOf tenPerDay) * (1 - (i : ℚ) * (1/50)) := by
    rw [adjustedForecasts_no_signals tenPerDay rfl rfl, calculateBaseForecast_getD _ hi]
  have hsame : (calculateBaseForecast (salesDataOf tenPerDayNegFlag)).getD i 0 =
      (adjustedForecasts tenPerDay).getD i 0 := by
    rw [calculateBaseForecast_getD _ hi, hR, monthlyBase_tenPerDayNegFlag,
      monthlyBase_tenPerDay]
  rw [hL, hsame]
  apply truncQ_mul_nineteen_twentieths_lt
  rw [hR, monthlyBase_tenPerDay]
  have hc : (i : ℚ) ≤ 11 := by exact_mod_cast (by omega : i ≤ 11)
  linarith

/-- Witness for C6: the factor law instantiated at a one-element base and the
single negative flag, together with the month-1 strict decrease. -/
theorem regulation_factor_spec_witness :
    (applyExogenousSignals [100] none (some [⟨"r1", 1, "negative"⟩]) none).getD 0 0 =
      (applyExogenousSignals [100] none none none).getD 0 0 *
        (1 + calculateRegulationImpact [⟨"r1", 1, "negative"⟩]) ∧
    ((predict tenPerDayNegFlag "t").forecasts.map
        (fun mf => mf.predicted_quantity)).getD 0 0 <
      ((predict tenPerDay "t").forecasts.map
        (fun mf => mf.predicted_quantity)).getD 0 0 :=
  ⟨regulation_factor_spec.1 [100] none [⟨"r1", 1, "negative"⟩] none 0 (by simp),
   regulation_factor_spec.2.2 0 (by norm_num)⟩

/-! ### C7: monotone decay without exogenous signals -/

/-- C7. With no trend data and no regulation flags, and a non-negative ensemble
base, the predicted quantities are non-increasing month over month (out-of-range
month indices read as the 0 default, which the non-negative quantities also
dominate). -/
theorem monotone_decay_spec (inputs : ForecastInputs) (now : String)
    (ht : inputs.trends_data = none) (hr : inputs.regulation_flags = none)
    (hb : 0 ≤ baseDaily (salesDataOf inputs)) (k : ℕ) :
    ((predict inputs now).forecasts.map
        (fun mf => mf.predicted_quantity)).getD (k + 1) 0 ≤
      ((predict inputs now).forecasts.map
        (fun mf => mf.predicted_quantity)).getD k 0 := by
  rw [predict_quantities, predictedQuantities]
  have hmB : 0 ≤ monthlyBase (salesDataOf inputs) := by
    rw [monthlyBase]; exact mul_nonneg hb (by norm_num)
  by_cases h7 : (salesDataOf inputs).length < 7
  · rw [forecastFields, if_pos h7, List.map_map]
    by_cases hk1 : k + 1 < 12
    · rw [getD_range_map_lt 12 _ hk1 0, getD_range_map_lt 12 _ (by omega : k < 12) 0]
      exact le_refl 0
    · by_cases hk : k < 12
      · rw [getD_range_map_ge 12 _ hk1 0, getD_range_map_lt 12 _ hk 0]
        exact le_refl 0
      · rw [getD_range_map_ge 12 _ hk1 0, getD_range_map_ge 12 _ hk 0]
  · rw [forecastFields, if_neg h7, List.map_map]
    have hadj : adjustedForecasts inputs =
        calculateBaseForecast (salesDataOf inputs) :=
      adjustedForecasts_no_signals inputs ht hr
    by_cases hk1 : k + 1 < 12
    · have hk : k < 12 := by omega
      rw [getD_range_map_lt 12 _ hk1 0, getD_range_map_lt 12 _ hk 0]
      show truncQ ((adjustedForecasts inputs).getD (k + 1) 0) ≤
        truncQ ((adjustedForecasts inputs).getD k 0)
      rw [hadj, calculateBaseForecast_getD _ hk1, calculateBaseForecast_getD _ hk]
      have hc : (k : ℚ) ≤ 10 := by exact_mod_cast (by omega : k ≤ 10)
      apply truncQ_le_truncQ
      · apply mul_nonneg hmB
        push_cast
        linarith
      · apply mul_le_mul_of_nonneg_left _ hmB
        push_cast
        linarith
    · by_cases hk : k < 12
      · rw [getD_range_map_ge 12 _ hk1 0, getD_range_map_lt 12 _ hk 0]
        show (0 : ℤ) ≤ truncQ ((adjustedForecasts inputs).getD k 0)
        rw [hadj, calculateBaseForecast_getD _ hk]
        apply truncQ_nonneg
        apply mul_nonneg hmB
        have hc : (k : ℚ) ≤ 11 := by exact_mod_cast (by omega : k ≤ 11)
        linarith
      · rw [getD_range_map_ge 12 _ hk1 0, getD_range_map_ge 12 _ hk 0]

/-- Witness for C7: months 1 and 2 of the signal-free 7×10 run. -/
theorem monotone_decay_spec_witness :
    ((predict tenPerDay "t").forecasts.map
        (fun mf => mf.predicted_quantity)).getD 1 0 ≤
      ((predict tenPerDay "t").forecasts.map
        (fun mf => mf.predicted_quantity)).getD 0 0 :=
  monotone_decay_spec tenPerDay "t" rfl rfl
    (by rw [salesData_tenPerDay, baseDaily_const7]; norm_num) 0

/-! ### C2: the checked pipeline never faults and agrees with the total one -/

theorem cdiv_eq {a b : ℚ} (hb : b ≠ 0) : cdiv a b = some (a / b) := by
  rw [cdiv, if_neg hb]

theorem crdiv_eq {a b : ℝ} (hb : b ≠ 0) : crdiv a b = some (a / b) := by
  rw [crdiv, if_neg hb]

theorem csqrt_eq {x : ℝ} (hx : 0 ≤ x) : csqrt x = some (Real.sqrt x) := by
  rw [csqrt, if_neg (not_lt.mpr hx)]

theorem simpleMovingAverageChecked_eq (data : List ℚ) (period : ℕ) :
    simpleMovingAverageChecked data period = some (simpleMovingAverage data period) := by
  simp only [simpleMovingAverageChecked, simpleMovingAverage]
  split_ifs
  any_goals rfl
  all_goals exact cdiv_eq (Nat.cast_ne_zero.mpr (by assumption))

theorem exponentialSmoothingChecked_eq (data : List ℚ) (alpha : ℚ) :
    exponentialSmoothingChecked data alpha = some (exponentialSmoothing data alpha) := by
  cases data with
  | nil => rfl
  | cons x xs =>
    rw [exponentialSmoothingChecked, if_neg (by simp)]
    rfl

theorem trendProjectionChecked_eq (data : List ℚ) :
    trendProjectionChecked data = some (trendProjection data) := by
  rw [trendProjectionChecked, trendProjection]
  by_cases h2 : data.length < 2
  · rw [if_pos h2, if_pos h2]
    cases data with
    | nil => rfl
    | cons x xs =>
      have h : 0 < (x :: xs).length := by simp
      rw [if_pos h, if_pos h]
      rfl
  · rw [if_neg h2, if_neg h2]
    have hn : ((data.length : ℚ)) ≠ 0 := Nat.cast_ne_zero.mpr (by omega)
    simp only [cdiv_eq hn, Option.some_bind, Option.bind_eq_bind]
    split_ifs with hd
    · rfl
    · simp only [cdiv_eq hd, Option.some_bind, Option.bind_eq_bind]
      rfl

theorem seasonalAdjustmentChecked_eq (data : List ℚ) :
    seasonalAdjustmentChecked data = some (seasonalAdjustment data) := by
  rw [seasonalAdjustmentChecked, seasonalAdjustment]
  split_ifs with h30 h0
  · exact cdiv_eq (Nat.cast_ne_zero.mpr (by omega))
  · rfl
  · exact cdiv_eq (by norm_num)

theorem calculateBaseForecastChecked_eq (data : List ℚ) :
    calculateBaseForecastChecked data = some (calculateBaseForecast data) := by
  rw [calculateBaseForecastChecked, simpleMovingAverageChecked_eq,
    exponentialSmoothingChecked_eq, trendProjectionChecked_eq,
    seasonalAdjustmentChecked_eq]
  rfl

theorem calculateTrendImpactChecked_eq (ts : List TrendSignal) :
    calculateTrendImpactChecked ts = some (calculateTrendImpact ts) := by
  rw [calculateTrendImpactChecked, calculateTrendImpact]
  split_ifs with he
  · rfl
  · have hn : ((ts.length : ℚ)) ≠ 0 := by
      have : ts ≠ [] := by simpa [List.isEmpty_iff] using he
      exact Nat.cast_ne_zero.mpr (by simpa [List.length_eq_zero] using this)
    rw [cdiv_eq hn, Option.bind_eq_bind, Option.some_bind, cdiv_eq (by norm_num : (500:ℚ) ≠ 0)]

theorem calculateRegulationImpactChecked_eq (rs : List RegulationFlag) :
    calculateRegulationImpactChecked rs = some (calculateRegulationImpact rs) := by
  rw [calculateRegulationImpactChecked, calculateRegulationImpact]
  split_ifs with he
  · rfl
  · have hn : ((rs.length : ℚ)) ≠ 0 := by
      have : rs ≠ [] := by simpa [List.isEmpty_iff] using he
      exact Nat.cast_ne_zero.mpr (by simpa [List.length_eq_zero] using this)
    exact cdiv_eq hn

theorem applyTrendSignalsChecked_eq (base : List ℚ)
    (trends : Option (List TrendSignal)) :
    applyTrendSignalsChecked base trends = some (applyTrendSignals base trends) := by
  cases trends with
  | none => rfl
  | some ts =>
    rw [applyTrendSignalsChecked, applyTrendSignals]
    split_ifs with he
    · rfl
    · simp only [calculateTrendImpactChecked_eq, Option.some_bind, Option.bind_eq_bind]
      rfl

theorem applyRegulationFlagsChecked_eq (withTrends : List ℚ)
    (regs : Option (List RegulationFlag)) :
    applyRegulationFlagsChecked withTrends regs =
      some (applyRegulationFlags withTrends regs) := by
  cases regs with
  | none => rfl
  | some rs =>
    rw [applyRegulationFlagsChecked, applyRegulationFlags]
    split_ifs with he
    · rfl
    · simp only [calculateRegulationImpactChecked_eq, Option.some_bind,
        Option.bind_eq_bind]
      rfl

theorem applyExogenousSignalsChecked_eq (base : List ℚ)
    (trends : Option (List TrendSignal)) (regs : Option (List RegulationFlag))
    (exo : Option (List (String × String))) :
    applyExogenousSignalsChecked base trends regs exo =
      some (applyExogenousSignals base trends regs exo) := by
  rw [applyExogenousSignalsChecked, applyExogenousSignals]
  simp only [applyTrendSignalsChecked_eq, applyRegulationFlagsChecked_eq,
    Option.some_bind, Option.bind_eq_bind]

theorem sampleVariance_nonneg {data : List ℚ} (h2 : 2 ≤ data.length) :
    0 ≤ sampleVariance data := by
  rw [sampleVariance]
  apply div_nonneg
  · apply List.sum_nonneg
    intro x hx
    obtain ⟨y, _, rfl⟩ := List.mem_map.mp hx
    positivity
  · have : (2 : ℚ) ≤ (data.length : ℚ) := by exact_mod_cast h2
    linarith

theorem sampleVarianceChecked_eq {data : List ℚ} (h2 : 2 ≤ data.length) :
    sampleVarianceChecked data = some (sampleVariance data) := by
  rw [sampleVarianceChecked, if_neg (by omega), sampleVariance]
  have hn : ((data.length : ℚ)) ≠ 0 := Nat.cast_ne_zero.mpr (by omega)
  have hn1 : ((data.length : ℚ)) - 1 ≠ 0 := by
    have : (2 : ℚ) ≤ (data.length : ℚ) := by exact_mod_cast h2
    intro h
    linarith [sub_eq_zero.mp h]
  rw [cdiv_eq hn, Option.bind_eq_bind, Option.some_bind, cdiv_eq hn1]

theorem meanChecked_eq {data : List ℚ} (h0 : data.length ≠ 0) :
    meanChecked data = some (data.sum / (data.length : ℚ)) := by
  rw [meanChecked, if_neg h0]
  exact cdiv_eq (Nat.cast_ne_zero.mpr h0)

theorem calculateConfidenceScoreChecked_eq (data : List ℚ) (month : ℕ) :
    calculateConfidenceScoreChecked data month =
      some (calculateConfidenceScore data month) := by
  rw [calculateConfidenceScoreChecked, calculateConfidenceScore]
  by_cases h7 : data.length < 7
  · rw [if_pos h7, if_pos h7]
  · rw [if_neg h7, if_neg h7]
    have h2 : 2 ≤ data.length := by omega
    have h1 : 1 < data.length := by omega
    have h0 : data.length ≠ 0 := by omega
    simp only [sampleVarianceChecked_eq h2, meanChecked_eq h0, if_pos h1,
      Option.some_bind, Option.bind_eq_bind]
    by_cases hm : 0 < data.sum / (data.length : ℚ)
    · have hv : (0 : ℝ) ≤ ((sampleVariance data : ℚ) : ℝ) := by
        exact_mod_cast sampleVariance_nonneg h2
      have hm' : ((data.sum / (data.length : ℚ) : ℚ) : ℝ) ≠ 0 := by
        exact_mod_cast ne_of_gt hm
      simp only [if_pos hm, csqrt_eq hv, crdiv_eq hm', Option.some_bind,
        Option.bind_eq_bind]
      rfl
    · simp only [if_neg hm]
      rfl

/-- A traversal whose body always succeeds returns the mapped list. -/
theorem mapM_eq_some_map {α β : Type} (f : α → Option β) (g : α → β)
    (h : ∀ a, f a = some (g a)) (l : List α) : l.mapM f = some (l.map g) := by
  rw [← List.mapM'_eq_mapM]
  induction l with
  | nil => rfl
  | cons a t ih => simp [List.mapM', h a, ih]

/-- C2 (supporting theorem; see the NameError import bug for the claim's
verdict). The checked predictor — every Python operation that can raise
(`ZeroDivisionError`, `IndexError`, `StatisticsError`, `ValueError` from
`math.sqrt`) modelled as `Option`, `none` exactly where Python would raise —
always returns `some`, and agrees with the total embedding: the forecasting
algorithm itself surfaces no internal fault for any well-typed input. -/
theorem predict_never_faults (inputs : ForecastInputs) (now : String) :
    predictChecked inputs now = some (predict inputs now) := by
  rw [predictChecked, predict]
  by_cases h7 : (salesDataOf inputs).length < 7
  · rw [if_pos h7, if_pos h7]
  · rw [if_neg h7, if_neg h7,
      calculateBaseForecastChecked_eq, Option.bind_eq_bind, Option.some_bind,
      applyExogenousSignalsChecked_eq, Option.bind_eq_bind, Option.some_bind,
      mapM_eq_some_map _
        (fun (i : ℕ) =>
          { month := (i : ℤ) + 1
            predicted_quantity :=
              truncQ ((applyExogenousSignals (calculateBaseForecast (salesDataOf inputs))
                inputs.trends_data inputs.regulation_flags inputs.exogenous_factors).getD i 0)
            confidence_lower :=
              truncQ ((applyExogenousSignals (calculateBaseForecast (salesDataOf inputs))
                inputs.trends_data inputs.regulation_flags inputs.exogenous_factors).getD i 0 * (4/5))
            confidence_upper :=
              truncQ ((applyExogenousSignals (calculateBaseForecast (salesDataOf inputs))
                inputs.trends_data inputs.regulation_flags inputs.exogenous_factors).getD i 0 * (6/5))
            confidence_score :=
              calculateConfidenceScore (salesDataOf inputs) (i + 1) : MonthlyForecast })
        (fun i => by
          rw [calculateConfidenceScoreChecked_eq, Option.bind_eq_bind, Option.some_bind]
          rfl),
      Option.some_bind]
    rfl

end Bantuaku
